import Mathlib

/-!
Verification of the annotation-reconciliation and dynamic-client adapter in
`pkg/client/client.go` (kpt).

Shallow embedding notes:

* A Kubernetes `unstructured.Unstructured` object is modelled as an optional
  annotations map (a unique-key association list of string keys to annotation
  values) together with an opaque `rest` component standing for every other
  field of the object tree.  Go's `map[string]string` assignment, lookup and
  delete become `setA`, `lookupA` and `eraseA` on the association list.
* An annotation value (`AnnVal`) is either a plain string (`prim`) or the
  serialization of another object (`ser`).  This models the external JSON
  codec abstractly but faithfully: `json.Unmarshal` succeeds exactly on
  strings that are serializations of an object and is a left inverse of the
  encoder; a malformed (or plain-string) value fails to deserialize.
* The external serializer (`scheme.DefaultJSONEncoder` fed through
  `util.CreateOrUpdateAnnotation`) may fail with an error, so the embedding
  of `UpdateAnnotation` is parameterized by the encoder
  `enc : Unstructured → Except String AnnVal`; the canonical encoder
  `defaultJSONEncoder` never fails and produces `AnnVal.ser`.
* Go functions that mutate `obj` in place are modelled by returning the
  updated object alongside the original results.  Go's `let`-bound locals
  are inlined (the functions are pure, so this is sound) to keep the
  definitions rewriting-friendly.
-/

mutual
/-- An annotation value: a plain string, or a string that is the
serialization of a whole object (as stored under the last-applied key). -/
inductive AnnVal : Type where
  | prim : String → AnnVal
  | ser : Unstructured → AnnVal

/-- Model of `unstructured.Unstructured`: an optional annotations map
(`none` models a Go `nil` map) plus the remainder of the object tree,
kept opaque as a string. -/
inductive Unstructured : Type where
  | mk : Option (List (String × AnnVal)) → String → Unstructured
end

/-- The annotations component (models `obj.GetAnnotations()`; `none` is Go's
`nil` map). -/
def Unstructured.getAnnotations : Unstructured → Option (List (String × AnnVal))
  | .mk a _ => a

/-- The opaque rest of the object tree. -/
def Unstructured.rest : Unstructured → String
  | .mk _ r => r

/-- Models `obj.SetAnnotations(m)` for a non-nil map `m`. -/
def Unstructured.setAnnotations (u : Unstructured) (a : List (String × AnnVal)) :
    Unstructured :=
  .mk (some a) u.rest

/-- Go map lookup `m[k]` on the association list (keys are unique, first
match wins). -/
def lookupA : List (String × AnnVal) → String → Option AnnVal
  | [], _ => none
  | (k', v) :: rest, k => if k' = k then some v else lookupA rest k

/-- Go map assignment `m[k] = v`: replace the entry for `k`, or append. -/
def setA : List (String × AnnVal) → String → AnnVal → List (String × AnnVal)
  | [], k, v => [(k, v)]
  | (k', v') :: rest, k, v =>
    if k' = k then (k, v) :: rest else (k', v') :: setA rest k v

/-- Go map deletion `delete(m, k)`: drop the entry for `k`. -/
def eraseA : List (String × AnnVal) → String → List (String × AnnVal)
  | [], _ => []
  | (k', v) :: rest, k => if k' = k then rest else (k', v) :: eraseA rest k

/-- The ownership annotation key `config.k8s.io/owning-inventory`
(local constant `key` in `UpdateAnnotation`). -/
def owningInventoryKey : String := "config.k8s.io/owning-inventory"

/-- The last-applied-configuration annotation key
(`v1.LastAppliedConfigAnnotation`). -/
def lastAppliedConfigAnn : String :=
  "kubectl.kubernetes.io/last-applied-configuration"

/-- Models `getOriginalObj` from `pkg/client/client.go`: read the
last-applied annotation; absent or undecodable values yield `none`,
a value that deserializes yields the snapshot object. -/
def getOriginalObj (obj : Unstructured) : Option Unstructured :=
  match lookupA ((Unstructured.getAnnotations obj).getD []) lastAppliedConfigAnn with
  | none => none
  | some (.prim _) => none
  | some (.ser u) => some u

/-- Whether an annotation value has `len < 1` as a Go string (the guard
`len(original) < 1` in kubectl's apply helpers); a serialized object is
always a nonempty string. -/
def isEmptyAnnVal : AnnVal → Bool
  | .prim s => s.isEmpty
  | .ser _ => false

/-- Model of the external kubectl helper
`util.CreateOrUpdateAnnotation(false, u, enc)` (an out-of-scope collaborator
of this repository, modelled from its documented behavior): when `u`
carries a nonempty last-applied annotation, serialize `u` with that
annotation removed and store the result back under the last-applied key;
when serialization fails return the error and leave `u` unchanged.
Returns the error (if any) together with the updated object. -/
def createOrUpdateApplyAnn (enc : Unstructured → Except String AnnVal)
    (u : Unstructured) : Option String × Unstructured :=
  match lookupA ((Unstructured.getAnnotations u).getD []) lastAppliedConfigAnn with
  | none => (none, u)
  | some orig =>
    if isEmptyAnnVal orig then (none, u)
    else
      match enc (u.setAnnotations (eraseA ((Unstructured.getAnnotations u).getD [])
          lastAppliedConfigAnn)) with
      | .error e => (some e, u)
      | .ok m =>
        if isEmptyAnnVal m then (none, u)
        else (none, u.setAnnotations (setA ((Unstructured.getAnnotations u).getD [])
          lastAppliedConfigAnn m))

/-- The canonical serializer (models `scheme.DefaultJSONEncoder()`): total,
and inverted by deserialization by construction. -/
def defaultJSONEncoder (u : Unstructured) : Except String AnnVal :=
  .ok (.ser u)

/-- The live annotations map right after the direct ownership write of
`UpdateAnnotation` (`annotations[key] = newID` in the source, where
`annotations` is the live map with a `nil` map defaulted to empty). -/
def liveUpdatedAnns (obj : Unstructured) (newID : String) :
    List (String × AnnVal) :=
  setA ((Unstructured.getAnnotations obj).getD []) owningInventoryKey (.prim newID)

/-- The body of the `if !found || val == oldID` branch of `UpdateAnnotation`:
set the ownership annotation to `newID`, and when a snapshot is embedded,
push the updated annotation map through the snapshot and the last-applied
codec (`u.SetAnnotations(annotations)`, `util.CreateOrUpdateAnnotation`,
`obj.SetAnnotations(u.GetAnnotations())`). -/
def doOwnerUpdate (enc : Unstructured → Except String AnnVal)
    (obj : Unstructured) (newID : String) :
    (Bool × Option String) × Unstructured :=
  match getOriginalObj obj with
  | some u =>
    ((true, (createOrUpdateApplyAnn enc (u.setAnnotations (liveUpdatedAnns obj newID))).1),
      obj.setAnnotations ((Unstructured.getAnnotations
        (createOrUpdateApplyAnn enc (u.setAnnotations (liveUpdatedAnns obj newID))).2).getD []))
  | none => ((true, none), obj.setAnnotations (liveUpdatedAnns obj newID))

/-- Models `UpdateAnnotation(obj, oldID, newID)` from `pkg/client/client.go`,
parameterized by the external serializer `enc`.  Returns
`((changed, err), obj')` where `obj'` is the in-place-mutated object.
The Go test `val, found := annotations[key]; if !found || val == oldID`
is rendered as a match: absent (`none`) or a plain string equal to `oldID`
proceeds to `doOwnerUpdate`; any other present value declines.  (A stored
serialized-object value is a JSON string distinct from a plain ID in this
model, so it never compares equal to `oldID`.) -/
def updateAnnotationFn (enc : Unstructured → Except String AnnVal)
    (obj : Unstructured) (oldID newID : String) :
    (Bool × Option String) × Unstructured :=
  match lookupA ((Unstructured.getAnnotations obj).getD []) owningInventoryKey with
  | none => doOwnerUpdate enc obj newID
  | some (.prim v) =>
    if v = oldID then doOwnerUpdate enc obj newID
    else ((false, none), obj)
  | some (.ser _) => ((false, none), obj)

/-- Models `object.ObjMetadata`: the identity of a remote resource.
The group-kind is kept opaque as a string. -/
structure ObjMetadata : Type where
  GroupKind : String
  Namespace : String
  Name : String
deriving DecidableEq

/-- Models the `meta.RESTMapping` result: the resolved resource descriptor,
kept opaque as a string. -/
structure RESTMapping : Type where
  Resource : String
deriving DecidableEq

/-- Models `metav1.UpdateOptions` (recognized remote options, here two
representative fields). -/
structure UpdateOptions : Type where
  DryRun : List String
  FieldManager : String
deriving DecidableEq

/-- The zero value `metav1.UpdateOptions\x7b\x7d`. -/
def zeroUpdateOptions : UpdateOptions :=
  { DryRun := [], FieldManager := "" }

/-- One remote invocation issued by the adapter, recorded for the call-trace
semantics: a REST-mapping resolution, a fetch, or an update. -/
inductive APICall : Type where
  | restMapping (gk : String)
  | fetch (resource ns name : String)
  | push (resource ns : String) (obj : Unstructured) (options : UpdateOptions)

/-- The adapter's two external dependencies (`dynamic.Interface` and
`meta.RESTMapper`), modelled as oracles: `restMapper` resolves a group-kind,
`remoteGet`/`remoteUpdate` are the remote calls on the namespaced resource
interface, keyed by the resolved resource descriptor and namespace. -/
structure Client : Type where
  restMapper : String → Except String RESTMapping
  remoteGet : String → String → String → Except String Unstructured
  remoteUpdate : String → String → Unstructured → UpdateOptions → Except String Unstructured

/-- Models `client.resourceInterface(meta)`: one REST-mapping resolution; on
success the namespaced handle is the pair (resolved resource descriptor,
namespace).  The first component is the trace of remote calls issued. -/
def Client.resourceInterface (uc : Client) (meta : ObjMetadata) :
    List APICall × Except String (String × String) :=
  match uc.restMapper meta.GroupKind with
  | .error e => ([.restMapping meta.GroupKind], .error e)
  | .ok mapping => ([.restMapping meta.GroupKind], .ok (mapping.Resource, meta.Namespace))

/-- Models `client.Get(ctx, meta)`: resolve a handle, then fetch by name;
a resolution error is returned unchanged with no fetch issued.  Returns the
trace of remote calls together with the result. -/
def Client.get (uc : Client) (meta : ObjMetadata) :
    List APICall × Except String Unstructured :=
  match uc.resourceInterface meta with
  | (t, .error e) => (t, .error e)
  | (t, .ok rn) =>
    (t ++ [.fetch rn.1 rn.2 meta.Name], uc.remoteGet rn.1 rn.2 meta.Name)

/-- Models `client.Update(ctx, meta, obj, options)`: resolve a handle,
default `nil` options to the zero value, issue one update, and return its
error.  Returns the trace of remote calls together with the error (if any). -/
def Client.update (uc : Client) (meta : ObjMetadata) (obj : Unstructured)
    (options : Option UpdateOptions) : List APICall × Option String :=
  match uc.resourceInterface meta with
  | (t, .error e) => (t, some e)
  | (t, .ok rn) =>
    match uc.remoteUpdate rn.1 rn.2 obj (options.getD zeroUpdateOptions) with
    | .error e => (t ++ [.push rn.1 rn.2 obj (options.getD zeroUpdateOptions)], some e)
    | .ok _ => (t ++ [.push rn.1 rn.2 obj (options.getD zeroUpdateOptions)], none)

/-- The condition of `UpdateAnnotation`'s guarded write: the ownership
annotation is absent, or is a plain string equal to `oldID`. -/
def ownerMatches (obj : Unstructured) (oldID : String) : Prop :=
  lookupA ((Unstructured.getAnnotations obj).getD []) owningInventoryKey = none ∨
  lookupA ((Unstructured.getAnnotations obj).getD []) owningInventoryKey =
    some (.prim oldID)

/-- The snapshot object that actually gets re-serialized on the snapshot
branch: the deserialized snapshot `s` carrying the live updated annotation
map, with the last-applied key removed before encoding. -/
def reserializedSnapshot (obj s : Unstructured) (newID : String) : Unstructured :=
  (s.setAnnotations (liveUpdatedAnns obj newID)).setAnnotations
    (eraseA (liveUpdatedAnns obj newID) lastAppliedConfigAnn)

/-- The snapshot-annotation update as claim C3 words it: apply the same
single assignment (ownership key := newID) to the deserialized snapshot's
own annotations. -/
def specSnapshotAnnUpdate (s : Unstructured) (newID : String) :
    List (String × AnnVal) :=
  setA ((Unstructured.getAnnotations s).getD []) owningInventoryKey (.prim newID)

/-- Test fixture: a snapshot carrying one private annotation of its own. -/
def snapInner : Unstructured := .mk (some [("a", .prim "b")]) "i"

/-- Test fixture: a live object embedding `snapInner` under the
last-applied key. -/
def snapOuter : Unstructured :=
  .mk (some [(lastAppliedConfigAnn, .ser snapInner)]) "o"

/-- Test fixture: a snapshot with an empty annotations map. -/
def emptySnapInner : Unstructured := .mk (some []) "i"

/-- Test fixture: a live object embedding `emptySnapInner` under the
last-applied key. -/
def emptySnapOuter : Unstructured :=
  .mk (some [(lastAppliedConfigAnn, .ser emptySnapInner)]) "o"

/-- Test fixture: a live object whose last-applied annotation is malformed
JSON. -/
def malformedObj : Unstructured :=
  .mk (some [(lastAppliedConfigAnn, .prim "not json")]) "x"

/-- Test fixture: a live object already owned by inventory `inv-1`. -/
def mismatchObj : Unstructured :=
  .mk (some [(owningInventoryKey, .prim "inv-1")]) "x"

/-- Test fixture: a client whose mapper recognizes everything except the
group-kind `bad`, and whose remote calls echo their arguments. -/
def testClient : Client where
  restMapper := fun gk => if gk = "bad" then .error "no mapping" else .ok ⟨gk ++ "s"⟩
  remoteGet := fun r n nm => .ok (.mk none (r ++ "/" ++ n ++ "/" ++ nm))
  remoteUpdate := fun _ _ o _ => .ok o

@[simp]
theorem getAnnotations_setAnnotations (u : Unstructured) (a : List (String × AnnVal)) :
    Unstructured.getAnnotations (u.setAnnotations a) = some a := rfl

theorem lookupA_setA_self : ∀ (m : List (String × AnnVal)) (k : String) (v : AnnVal),
    lookupA (setA m k v) k = some v
  | [], k, v => by simp [setA, lookupA]
  | (k', v') :: rest, k, v => by
    by_cases h : k' = k
    · simp [setA, lookupA, h]
    · simp [setA, lookupA, h, lookupA_setA_self rest k v]

theorem lookupA_setA_ne : ∀ (m : List (String × AnnVal)) (k j : String) (v : AnnVal),
    j ≠ k → lookupA (setA m k v) j = lookupA m j
  | [], k, j, v, hj => by
    simp [setA, lookupA, Ne.symm hj]
  | (k', v') :: rest, k, j, v, hj => by
    by_cases h : k' = k
    · subst h
      simp [setA, lookupA, Ne.symm hj]
    · by_cases h2 : k' = j
      · simp [setA, lookupA, h, h2, hj]
      · simp [setA, lookupA, h, h2, lookupA_setA_ne rest k j v hj]

theorem lookupA_eraseA_ne : ∀ (m : List (String × AnnVal)) (k j : String),
    j ≠ k → lookupA (eraseA m k) j = lookupA m j
  | [], _, _, _ => rfl
  | (k', v') :: rest, k, j, hj => by
    by_cases h : k' = k
    · subst h
      simp [eraseA, lookupA, Ne.symm hj]
    · by_cases h2 : k' = j
      · simp [eraseA, lookupA, h, h2, hj]
      · simp [eraseA, lookupA, h, h2, lookupA_eraseA_ne rest k j hj]

theorem owningInventoryKey_ne_lastApplied :
    owningInventoryKey ≠ lastAppliedConfigAnn := by
  decide

theorem getOriginalObj_eq_some_iff (obj s : Unstructured) :
    getOriginalObj obj = some s ↔
      lookupA ((Unstructured.getAnnotations obj).getD []) lastAppliedConfigAnn =
        some (.ser s) := by
  unfold getOriginalObj
  cases h : lookupA ((Unstructured.getAnnotations obj).getD []) lastAppliedConfigAnn with
  | none => simp
  | some v => cases v <;> simp

theorem createOrUpdateApplyAnn_lookup_ne (enc : Unstructured → Except String AnnVal)
    (u : Unstructured) (j : String) (hj : j ≠ lastAppliedConfigAnn) :
    lookupA ((Unstructured.getAnnotations (createOrUpdateApplyAnn enc u).2).getD []) j =
      lookupA ((Unstructured.getAnnotations u).getD []) j := by
  unfold createOrUpdateApplyAnn
  cases h : lookupA ((Unstructured.getAnnotations u).getD []) lastAppliedConfigAnn with
  | none => simp
  | some orig =>
    by_cases he : isEmptyAnnVal orig = true
    · simp [he]
    · cases henc : enc (u.setAnnotations (eraseA ((Unstructured.getAnnotations u).getD [])
          lastAppliedConfigAnn)) with
      | error e => simp [he, henc]
      | ok m =>
        by_cases hm : isEmptyAnnVal m = true
        · simp [he, henc, hm]
        · simp [he, henc, hm, lookupA_setA_ne _ _ _ _ hj]

theorem createOrUpdateApplyAnn_error (enc : Unstructured → Except String AnnVal)
    (u : Unstructured) (orig : AnnVal) (e : String)
    (horig : lookupA ((Unstructured.getAnnotations u).getD []) lastAppliedConfigAnn =
      some orig)
    (hne : isEmptyAnnVal orig = false)
    (henc : enc (u.setAnnotations (eraseA ((Unstructured.getAnnotations u).getD [])
      lastAppliedConfigAnn)) = .error e) :
    createOrUpdateApplyAnn enc u = (some e, u) := by
  unfold createOrUpdateApplyAnn
  rw [horig, henc]
  simp [hne]

theorem createOrUpdateApplyAnn_ok (enc : Unstructured → Except String AnnVal)
    (u : Unstructured) (orig m : AnnVal)
    (horig : lookupA ((Unstructured.getAnnotations u).getD []) lastAppliedConfigAnn =
      some orig)
    (hne : isEmptyAnnVal orig = false)
    (henc : enc (u.setAnnotations (eraseA ((Unstructured.getAnnotations u).getD [])
      lastAppliedConfigAnn)) = .ok m)
    (hm : isEmptyAnnVal m = false) :
    createOrUpdateApplyAnn enc u =
      (none, u.setAnnotations (setA ((Unstructured.getAnnotations u).getD [])
        lastAppliedConfigAnn m)) := by
  unfold createOrUpdateApplyAnn
  rw [horig, henc]
  simp [hne, hm]

theorem doOwnerUpdate_none (enc : Unstructured → Except String AnnVal)
    (obj : Unstructured) (newID : String) (hs : getOriginalObj obj = none) :
    doOwnerUpdate enc obj newID =
      ((true, none), obj.setAnnotations (liveUpdatedAnns obj newID)) := by
  unfold doOwnerUpdate
  rw [hs]

theorem doOwnerUpdate_some (enc : Unstructured → Except String AnnVal)
    (obj s : Unstructured) (newID : String) (hs : getOriginalObj obj = some s) :
    doOwnerUpdate enc obj newID =
      ((true, (createOrUpdateApplyAnn enc
          (s.setAnnotations (liveUpdatedAnns obj newID))).1),
        obj.setAnnotations ((Unstructured.getAnnotations (createOrUpdateApplyAnn enc
          (s.setAnnotations (liveUpdatedAnns obj newID))).2).getD [])) := by
  unfold doOwnerUpdate
  rw [hs]

theorem doOwnerUpdate_changed (enc : Unstructured → Except String AnnVal)
    (obj : Unstructured) (newID : String) :
    (doOwnerUpdate enc obj newID).1.1 = true := by
  cases h : getOriginalObj obj with
  | none => rw [doOwnerUpdate_none enc obj newID h]
  | some u => rw [doOwnerUpdate_some enc obj u newID h]

theorem doOwnerUpdate_owner (enc : Unstructured → Except String AnnVal)
    (obj : Unstructured) (newID : String) :
    lookupA ((Unstructured.getAnnotations (doOwnerUpdate enc obj newID).2).getD [])
      owningInventoryKey = some (.prim newID) := by
  cases h : getOriginalObj obj with
  | none =>
    rw [doOwnerUpdate_none enc obj newID h]
    simp [liveUpdatedAnns, lookupA_setA_self]
  | some u =>
    rw [doOwnerUpdate_some enc obj u newID h]
    simp only [getAnnotations_setAnnotations, Option.getD_some]
    rw [createOrUpdateApplyAnn_lookup_ne enc _ _ owningInventoryKey_ne_lastApplied]
    simp [liveUpdatedAnns, lookupA_setA_self]

theorem updateAnn_eq_do (enc : Unstructured → Except String AnnVal)
    (obj : Unstructured) (oldID newID : String) (h : ownerMatches obj oldID) :
    updateAnnotationFn enc obj oldID newID = doOwnerUpdate enc obj newID := by
  unfold updateAnnotationFn
  rcases h with h | h
  · rw [h]
  · rw [h]
    simp

theorem updateAnn_mismatch (enc : Unstructured → Except String AnnVal)
    (obj : Unstructured) (oldID newID : String) (v : AnnVal)
    (hv : lookupA ((Unstructured.getAnnotations obj).getD []) owningInventoryKey =
      some v)
    (hne : v ≠ .prim oldID) :
    updateAnnotationFn enc obj oldID newID = ((false, none), obj) := by
  unfold updateAnnotationFn
  rw [hv]
  cases v with
  | prim s =>
    have hs : s ≠ oldID := fun hc => hne (by rw [hc])
    simp [hs]
  | ser u => rfl

theorem lookup_lastApplied_in_live (obj s : Unstructured) (newID : String)
    (hs : getOriginalObj obj = some s) :
    lookupA ((Unstructured.getAnnotations
        (s.setAnnotations (liveUpdatedAnns obj newID))).getD [])
      lastAppliedConfigAnn = some (.ser s) := by
  simp only [getAnnotations_setAnnotations, Option.getD_some, liveUpdatedAnns]
  rw [lookupA_setA_ne _ _ _ _ (Ne.symm owningInventoryKey_ne_lastApplied)]
  exact (getOriginalObj_eq_some_iff obj s).mp hs

theorem updateAnn_not_matches (enc : Unstructured → Except String AnnVal)
    (obj : Unstructured) (oldID newID : String) (h : ¬ ownerMatches obj oldID) :
    updateAnnotationFn enc obj oldID newID = ((false, none), obj) := by
  cases hv : lookupA ((Unstructured.getAnnotations obj).getD []) owningInventoryKey with
  | none => exact absurd (Or.inl hv) h
  | some v =>
    refine updateAnn_mismatch enc obj oldID newID v hv (fun hc => h (Or.inr ?_))
    rw [hv, hc]

theorem updateAnn_snapshot_result (obj s : Unstructured) (oldID newID : String)
    (h : ownerMatches obj oldID) (hs : getOriginalObj obj = some s) :
    updateAnnotationFn defaultJSONEncoder obj oldID newID =
      ((true, none),
        obj.setAnnotations (setA (liveUpdatedAnns obj newID) lastAppliedConfigAnn
          (.ser (reserializedSnapshot obj s newID)))) := by
  rw [updateAnn_eq_do _ _ _ _ h, doOwnerUpdate_some defaultJSONEncoder obj s newID hs]
  rw [createOrUpdateApplyAnn_ok defaultJSONEncoder _ (.ser s)
    (.ser (reserializedSnapshot obj s newID))
    (lookup_lastApplied_in_live obj s newID hs) rfl (by rfl) rfl]
  simp [reserializedSnapshot]

theorem resourceInterface_error (uc : Client) (meta : ObjMetadata) (e : String)
    (he : uc.restMapper meta.GroupKind = .error e) :
    uc.resourceInterface meta = ([.restMapping meta.GroupKind], .error e) := by
  unfold Client.resourceInterface
  rw [he]

theorem resourceInterface_ok (uc : Client) (meta : ObjMetadata) (m : RESTMapping)
    (hm : uc.restMapper meta.GroupKind = .ok m) :
    uc.resourceInterface meta =
      ([.restMapping meta.GroupKind], .ok (m.Resource, meta.Namespace)) := by
  unfold Client.resourceInterface
  rw [hm]

/-- Claim C1: for every object and IDs, if the ownership annotation is absent or
currently equals `oldID`, `UpdateAnnotation` sets it to `newID` and returns
changed = true; in particular, on an object with no annotations and no
last-applied snapshot, `(obj, "", "inv-2")` yields ownership `"inv-2"` and
result `(true, nil)`. -/
theorem C1_conditional_owner_write (enc : Unstructured → Except String AnnVal)
    (obj : Unstructured) (oldID newID : String) (h : ownerMatches obj oldID) :
    ((updateAnnotationFn enc obj oldID newID).1.1 = true ∧
      lookupA ((Unstructured.getAnnotations
          (updateAnnotationFn enc obj oldID newID).2).getD [])
        owningInventoryKey = some (.prim newID)) ∧
    updateAnnotationFn defaultJSONEncoder (.mk none "x") "" "inv-2" =
      ((true, none), .mk (some [(owningInventoryKey, .prim "inv-2")]) "x") := by
  refine ⟨⟨?_, ?_⟩, rfl⟩
  · rw [updateAnn_eq_do enc obj oldID newID h]
    exact doOwnerUpdate_changed enc obj newID
  · rw [updateAnn_eq_do enc obj oldID newID h]
    exact doOwnerUpdate_owner enc obj newID

theorem C1_conditional_owner_write_wit :
    ownerMatches (.mk none "x") "" ∧
    (((updateAnnotationFn defaultJSONEncoder (.mk none "x") "" "inv-2").1.1 = true ∧
      lookupA ((Unstructured.getAnnotations
          (updateAnnotationFn defaultJSONEncoder (.mk none "x") "" "inv-2").2).getD [])
        owningInventoryKey = some (.prim "inv-2")) ∧
    updateAnnotationFn defaultJSONEncoder (.mk none "x") "" "inv-2" =
      ((true, none), .mk (some [(owningInventoryKey, .prim "inv-2")]) "x")) :=
  ⟨Or.inl rfl,
    C1_conditional_owner_write defaultJSONEncoder (.mk none "x") "" "inv-2" (Or.inl rfl)⟩

/-- Claim C2: when the ownership annotation is present with a value different from
`oldID`, `UpdateAnnotation` returns `(false, nil)` and the whole object is
returned unmodified. -/
theorem C2_mismatch_unmodified (enc : Unstructured → Except String AnnVal)
    (obj : Unstructured) (oldID newID : String) (v : AnnVal)
    (hv : lookupA ((Unstructured.getAnnotations obj).getD []) owningInventoryKey =
      some v)
    (hne : v ≠ .prim oldID) :
    updateAnnotationFn enc obj oldID newID = ((false, none), obj) :=
  updateAnn_mismatch enc obj oldID newID v hv hne

theorem C2_mismatch_unmodified_wit :
    lookupA ((Unstructured.getAnnotations mismatchObj).getD []) owningInventoryKey =
      some (.prim "inv-1") ∧
    (AnnVal.prim "inv-1" ≠ AnnVal.prim "inv-9") ∧
    updateAnnotationFn defaultJSONEncoder mismatchObj "inv-9" "inv-2" =
      ((false, none), mismatchObj) :=
  ⟨rfl, fun hc => by injection hc with h2; exact absurd h2 (by decide),
    C2_mismatch_unmodified defaultJSONEncoder mismatchObj "inv-9" "inv-2"
      (.prim "inv-1") rfl
      (fun hc => by injection hc with h2; exact absurd h2 (by decide))⟩

/-- Claim C5: with `newID ≠ oldID`, once a first call changed the object, a second
call with identical arguments declines: it returns `(false, nil)` and leaves
the object as the first call left it. -/
theorem C5_second_call_noop (enc : Unstructured → Except String AnnVal)
    (obj : Unstructured) (oldID newID : String) (hne : newID ≠ oldID)
    (hfirst : (updateAnnotationFn enc obj oldID newID).1.1 = true) :
    updateAnnotationFn enc (updateAnnotationFn enc obj oldID newID).2 oldID newID =
      ((false, none), (updateAnnotationFn enc obj oldID newID).2) := by
  by_cases h : ownerMatches obj oldID
  · have hv : lookupA ((Unstructured.getAnnotations
        (updateAnnotationFn enc obj oldID newID).2).getD []) owningInventoryKey =
        some (.prim newID) := by
      rw [updateAnn_eq_do enc obj oldID newID h]
      exact doOwnerUpdate_owner enc obj newID
    exact updateAnn_mismatch enc _ oldID newID (.prim newID) hv
      (fun hc => hne (AnnVal.prim.inj hc))
  · rw [updateAnn_not_matches enc obj oldID newID h] at hfirst
    exact Bool.noConfusion hfirst

theorem C5_second_call_noop_wit :
    ("inv-2" ≠ "") ∧
    (updateAnnotationFn defaultJSONEncoder (.mk none "x") "" "inv-2").1.1 = true ∧
    updateAnnotationFn defaultJSONEncoder
        (updateAnnotationFn defaultJSONEncoder (.mk none "x") "" "inv-2").2 "" "inv-2" =
      ((false, none), (updateAnnotationFn defaultJSONEncoder (.mk none "x") "" "inv-2").2) :=
  ⟨by decide, rfl,
    C5_second_call_noop defaultJSONEncoder (.mk none "x") "" "inv-2" (by decide) rfl⟩

/-- Claim C7: when the ownership condition holds but the last-applied annotation
is absent or fails to deserialize, `UpdateAnnotation` writes the ownership
annotation directly on the live object and returns `(true, nil)`, with no
decode error surfaced. -/
theorem C7_no_snapshot_direct_write (enc : Unstructured → Except String AnnVal)
    (obj : Unstructured) (oldID newID : String)
    (h : ownerMatches obj oldID) (hs : getOriginalObj obj = none) :
    updateAnnotationFn enc obj oldID newID =
      ((true, none), obj.setAnnotations (liveUpdatedAnns obj newID)) ∧
    lookupA ((Unstructured.getAnnotations
        (updateAnnotationFn enc obj oldID newID).2).getD []) owningInventoryKey =
      some (.prim newID) := by
  have h1 : updateAnnotationFn enc obj oldID newID =
      ((true, none), obj.setAnnotations (liveUpdatedAnns obj newID)) := by
    rw [updateAnn_eq_do enc obj oldID newID h, doOwnerUpdate_none enc obj newID hs]
  refine ⟨h1, ?_⟩
  rw [h1]
  simp only [getAnnotations_setAnnotations, Option.getD_some, liveUpdatedAnns]
  exact lookupA_setA_self _ _ _

theorem C7_no_snapshot_direct_write_wit :
    ownerMatches malformedObj "" ∧
    getOriginalObj malformedObj = none ∧
    (updateAnnotationFn defaultJSONEncoder malformedObj "" "inv-2" =
      ((true, none), malformedObj.setAnnotations (liveUpdatedAnns malformedObj "inv-2")) ∧
    lookupA ((Unstructured.getAnnotations
        (updateAnnotationFn defaultJSONEncoder malformedObj "" "inv-2").2).getD [])
      owningInventoryKey = some (.prim "inv-2")) :=
  ⟨Or.inl rfl, rfl,
    C7_no_snapshot_direct_write defaultJSONEncoder malformedObj "" "inv-2"
      (Or.inl rfl) rfl⟩

/-- Claim C10: the function `UpdateAnnotation` reports a non-nil error only together with
changed = true: whenever it returns changed = false, the error is nil. -/
theorem C10_false_implies_nil_error (enc : Unstructured → Except String AnnVal)
    (obj : Unstructured) (oldID newID : String)
    (h : (updateAnnotationFn enc obj oldID newID).1.1 = false) :
    (updateAnnotationFn enc obj oldID newID).1.2 = none := by
  by_cases hm : ownerMatches obj oldID
  · rw [updateAnn_eq_do enc obj oldID newID hm, doOwnerUpdate_changed enc obj newID] at h
    exact absurd h (by decide)
  · rw [updateAnn_not_matches enc obj oldID newID hm]

theorem C10_false_implies_nil_error_wit :
    (updateAnnotationFn defaultJSONEncoder mismatchObj "inv-9" "inv-2").1.1 = false ∧
    (updateAnnotationFn defaultJSONEncoder mismatchObj "inv-9" "inv-2").1.2 = none :=
  ⟨rfl, C10_false_implies_nil_error defaultJSONEncoder mismatchObj "inv-9" "inv-2" rfl⟩

/-- Claim C3 counterexample: the claim says the ownership assignment is
applied to the deserialized snapshot's own annotations; but on a snapshot
carrying a private annotation `a`, the snapshot decoded back from the
result's last-applied annotation has lost `a`, while the claimed update of
the snapshot's own annotations (`specSnapshotAnnUpdate`) keeps it. -/
theorem C3_snapshot_not_own_annotations_cex :
    getOriginalObj (updateAnnotationFn defaultJSONEncoder snapOuter "" "inv-3").2 =
      some (.mk (some [(owningInventoryKey, .prim "inv-3")]) "i") ∧
    lookupA ((Unstructured.getAnnotations
        (Unstructured.mk (some [(owningInventoryKey, .prim "inv-3")]) "i")).getD [])
      "a" = none ∧
    lookupA (specSnapshotAnnUpdate snapInner "inv-3") "a" = some (.prim "b") :=
  ⟨rfl, rfl, rfl⟩

/-- Claim C3 (amended): on the snapshot branch, `UpdateAnnotation` does not merely
apply the ownership assignment to the deserialized snapshot's own
annotations — it replaces the snapshot's entire annotation set with the live
object's updated annotation set (so annotations private to the snapshot are
dropped), re-serializes the snapshot with the last-applied key removed back
under the live object's last-applied annotation key, and copies the
snapshot's full annotation set onto the live object's annotation set. -/
theorem C3_snapshot_replaced_amended (obj s : Unstructured) (oldID newID : String)
    (h : ownerMatches obj oldID) (hs : getOriginalObj obj = some s) :
    updateAnnotationFn defaultJSONEncoder obj oldID newID =
      ((true, none),
        obj.setAnnotations (setA (liveUpdatedAnns obj newID) lastAppliedConfigAnn
          (.ser (reserializedSnapshot obj s newID)))) ∧
    getOriginalObj (updateAnnotationFn defaultJSONEncoder obj oldID newID).2 =
      some (reserializedSnapshot obj s newID) ∧
    Unstructured.getAnnotations (reserializedSnapshot obj s newID) =
      some (eraseA (liveUpdatedAnns obj newID) lastAppliedConfigAnn) := by
  have h1 := updateAnn_snapshot_result obj s oldID newID h hs
  refine ⟨h1, ?_, rfl⟩
  rw [h1, getOriginalObj_eq_some_iff]
  simp only [getAnnotations_setAnnotations, Option.getD_some]
  exact lookupA_setA_self _ _ _

theorem C3_snapshot_replaced_amended_wit :
    ownerMatches snapOuter "" ∧
    getOriginalObj snapOuter = some snapInner ∧
    (updateAnnotationFn defaultJSONEncoder snapOuter "" "inv-3" =
      ((true, none),
        snapOuter.setAnnotations (setA (liveUpdatedAnns snapOuter "inv-3")
          lastAppliedConfigAnn (.ser (reserializedSnapshot snapOuter snapInner "inv-3")))) ∧
    getOriginalObj (updateAnnotationFn defaultJSONEncoder snapOuter "" "inv-3").2 =
      some (reserializedSnapshot snapOuter snapInner "inv-3") ∧
    Unstructured.getAnnotations (reserializedSnapshot snapOuter snapInner "inv-3") =
      some (eraseA (liveUpdatedAnns snapOuter "inv-3") lastAppliedConfigAnn)) :=
  ⟨Or.inl rfl, rfl,
    C3_snapshot_replaced_amended snapOuter snapInner "" "inv-3" (Or.inl rfl) rfl⟩

/-- Claim C4: when the ownership condition holds, a snapshot is embedded, and
re-serializing the updated snapshot fails, `UpdateAnnotation` returns
changed = true together with that encoding error, and at that point the
live object's ownership annotation has already been set to `newID` (the
mutation is not rolled back). -/
theorem C4_encode_error_after_mutation (enc : Unstructured → Except String AnnVal)
    (obj s : Unstructured) (oldID newID e : String)
    (h : ownerMatches obj oldID) (hs : getOriginalObj obj = some s)
    (henc : enc ((s.setAnnotations (liveUpdatedAnns obj newID)).setAnnotations
      (eraseA (liveUpdatedAnns obj newID) lastAppliedConfigAnn)) = .error e) :
    (updateAnnotationFn enc obj oldID newID).1 = (true, some e) ∧
    lookupA ((Unstructured.getAnnotations
        (updateAnnotationFn enc obj oldID newID).2).getD [])
      owningInventoryKey = some (.prim newID) := by
  have hcu := createOrUpdateApplyAnn_error enc
    (s.setAnnotations (liveUpdatedAnns obj newID)) (.ser s) e
    (lookup_lastApplied_in_live obj s newID hs) rfl henc
  rw [updateAnn_eq_do enc obj oldID newID h, doOwnerUpdate_some enc obj s newID hs, hcu]
  refine ⟨rfl, ?_⟩
  simp only [getAnnotations_setAnnotations, Option.getD_some, liveUpdatedAnns]
  exact lookupA_setA_self _ _ _

theorem C4_encode_error_after_mutation_wit :
    ownerMatches snapOuter "" ∧
    getOriginalObj snapOuter = some snapInner ∧
    ((updateAnnotationFn (fun _ => .error "boom") snapOuter "" "inv-3").1 =
      (true, some "boom") ∧
    lookupA ((Unstructured.getAnnotations
        (updateAnnotationFn (fun _ => .error "boom") snapOuter "" "inv-3").2).getD [])
      owningInventoryKey = some (.prim "inv-3")) :=
  ⟨Or.inl rfl, rfl,
    C4_encode_error_after_mutation (fun _ => .error "boom") snapOuter snapInner
      "" "inv-3" "boom" (Or.inl rfl) rfl rfl⟩

/-- Claim C6: for an object whose last-applied annotation deserializes into a
snapshot with an empty annotations map, after `UpdateAnnotation(obj, "",
"inv-3")` both the live object's ownership annotation and the ownership
annotation of the snapshot decoded back from the live object's last-applied
annotation equal `"inv-3"`. -/
theorem C6_live_and_snapshot_owner (obj s : Unstructured)
    (h : ownerMatches obj "") (hs : getOriginalObj obj = some s)
    (_hempty : Unstructured.getAnnotations s = some []) :
    lookupA ((Unstructured.getAnnotations
        (updateAnnotationFn defaultJSONEncoder obj "" "inv-3").2).getD [])
      owningInventoryKey = some (.prim "inv-3") ∧
    getOriginalObj (updateAnnotationFn defaultJSONEncoder obj "" "inv-3").2 =
      some (reserializedSnapshot obj s "inv-3") ∧
    lookupA ((Unstructured.getAnnotations
        (reserializedSnapshot obj s "inv-3")).getD []) owningInventoryKey =
      some (.prim "inv-3") := by
  have h1 := updateAnn_snapshot_result obj s "" "inv-3" h hs
  refine ⟨?_, ?_, ?_⟩
  · rw [updateAnn_eq_do _ _ _ _ h]
    exact doOwnerUpdate_owner _ obj "inv-3"
  · rw [h1, getOriginalObj_eq_some_iff]
    simp only [getAnnotations_setAnnotations, Option.getD_some]
    exact lookupA_setA_self _ _ _
  · simp only [reserializedSnapshot, getAnnotations_setAnnotations, Option.getD_some]
    rw [lookupA_eraseA_ne _ _ _ owningInventoryKey_ne_lastApplied]
    simp only [liveUpdatedAnns]
    exact lookupA_setA_self _ _ _

theorem C6_live_and_snapshot_owner_wit :
    ownerMatches emptySnapOuter "" ∧
    getOriginalObj emptySnapOuter = some emptySnapInner ∧
    Unstructured.getAnnotations emptySnapInner = some [] ∧
    (lookupA ((Unstructured.getAnnotations
        (updateAnnotationFn defaultJSONEncoder emptySnapOuter "" "inv-3").2).getD [])
      owningInventoryKey = some (.prim "inv-3") ∧
    getOriginalObj (updateAnnotationFn defaultJSONEncoder emptySnapOuter "" "inv-3").2 =
      some (reserializedSnapshot emptySnapOuter emptySnapInner "inv-3") ∧
    lookupA ((Unstructured.getAnnotations
        (reserializedSnapshot emptySnapOuter emptySnapInner "inv-3")).getD [])
      owningInventoryKey = some (.prim "inv-3")) :=
  ⟨Or.inl rfl, rfl, rfl,
    C6_live_and_snapshot_owner emptySnapOuter emptySnapInner (Or.inl rfl) rfl rfl⟩

/-- Claim C8: the operation `Get` performs exactly one REST-mapping resolution; if resolution
fails the resolution error is returned unchanged and no fetch is issued;
otherwise exactly one fetch by name in the resolved namespace is issued and
its result (or error) is returned verbatim. -/
theorem C8_get_single_resolution_fetch (uc : Client) (meta : ObjMetadata) :
    (∀ e : String, uc.restMapper meta.GroupKind = .error e →
      Client.get uc meta = ([.restMapping meta.GroupKind], .error e)) ∧
    (∀ m : RESTMapping, uc.restMapper meta.GroupKind = .ok m →
      Client.get uc meta =
        ([.restMapping meta.GroupKind, .fetch m.Resource meta.Namespace meta.Name],
          uc.remoteGet m.Resource meta.Namespace meta.Name)) := by
  constructor
  · intro e he
    unfold Client.get
    rw [resourceInterface_error uc meta e he]
  · intro m hm
    unfold Client.get
    rw [resourceInterface_ok uc meta m hm]
    rfl

theorem C8_get_single_resolution_fetch_wit :
    testClient.restMapper "bad" = .error "no mapping" ∧
    Client.get testClient ⟨"bad", "n", "a"⟩ =
      ([.restMapping "bad"], .error "no mapping") ∧
    testClient.restMapper "pod" = .ok ⟨"pods"⟩ ∧
    Client.get testClient ⟨"pod", "n", "a"⟩ =
      ([.restMapping "pod", .fetch "pods" "n" "a"],
        .ok (.mk none "pods/n/a")) :=
  ⟨rfl,
    (C8_get_single_resolution_fetch testClient ⟨"bad", "n", "a"⟩).1 "no mapping" rfl,
    rfl,
    (C8_get_single_resolution_fetch testClient ⟨"pod", "n", "a"⟩).2 ⟨"pods"⟩ rfl⟩

/-- Claim C9: the operation `Update` with nil options is observationally identical (same trace
of remote calls, same returned error) to `Update` with an explicit
zero-valued options object. -/
theorem C9_nil_options_equiv_zero (uc : Client) (meta : ObjMetadata)
    (obj : Unstructured) :
    Client.update uc meta obj none =
      Client.update uc meta obj (some zeroUpdateOptions) := rfl
